import Mathlib

/-!
Shallow embedding of the backend-abstraction and process-orchestration core
of `src/server.js` (claude-gemini-cli-api): configuration, the normalized
request options, the two backend argument mappers, the process-executor
event semantics, the fallback orchestrator, output parsing, the streaming
relay's sink behaviour, and the batch handler's validation and loop.
-/

namespace ClaudeGeminiAPI

/-- Configuration values read from the environment at startup
(the fields of `CONFIG` in `server.js` that the orchestration core uses). -/
structure Config where
  DEFAULT_CLI : String
  ENABLE_FALLBACK : Bool
  CLAUDE_DEFAULT_MODEL : String
  GEMINI_DEFAULT_MODEL : String
  deriving DecidableEq, Repr

/-- Computation of `CONFIG.ENABLE_FALLBACK` on line 26 of `server.js`:
`process.env.ENABLE_FALLBACK === "true" || true`, where the argument is the
raw environment variable (`none` models an unset variable). -/
def configEnableFallback (envENABLE_FALLBACK : Option String) : Bool :=
  (envENABLE_FALLBACK == some "true") || true

/-- Function `getDefaultModel(cli)` from `server.js`. -/
def getDefaultModel (cfg : Config) (cli : String) : String :=
  if cli == "gemini" then cfg.GEMINI_DEFAULT_MODEL else cfg.CLAUDE_DEFAULT_MODEL

/-- JavaScript truthiness of an optional string field: `undefined`
(modelled by `none`) and the empty string are falsy. -/
def strTruthy : Option String → Bool
  | none => false
  | some s => !(s == "")

/-- JavaScript `a || b` where `a` is an optional string and `b` a string:
returns `b` when `a` is absent or empty. -/
def jsOrStr (a : Option String) (b : String) : String :=
  match a with
  | some s => if s == "" then b else s
  | none => b

/-- JavaScript `a || b` on two optional strings (used for per-item
overrides in the batch handler). -/
def jsOrOpt (a b : Option String) : Option String :=
  if strTruthy a then a else b

/-- The normalized request options object (`options` / `req.body` fields the
core destructures). `Option` models a possibly-absent JSON field; the
`settings` blob is modelled by its serialized form (the code emits
`JSON.stringify(settings)`). -/
structure Options where
  prompt : String
  outputFormat : Option String := none
  model : Option String := none
  systemPrompt : Option String := none
  appendSystemPrompt : Option String := none
  allowedTools : Option (List String) := none
  disallowedTools : Option (List String) := none
  dangerouslySkipPermissions : Bool := false
  settings : Option String := none
  mcpConfig : Option (List String) := none
  sessionId : Option String := none
  continueSession : Bool := false
  resumeSession : Option String := none
  includePartialMessages : Bool := false
  cli : Option String := none
  disableFallback : Bool := false
  deriving DecidableEq, Repr

/-- Session-management arguments of `mapToGeminiArgs` (lines 142-147):
`resumeSession` takes precedence; a bare `sessionId` is mapped to
`--resume latest`. -/
def geminiSessionArgs (o : Options) : List String :=
  if strTruthy o.resumeSession then ["--resume", o.resumeSession.getD ""]
  else if strTruthy o.sessionId then ["--resume", "latest"]
  else []

/-- Function `mapToGeminiArgs(options)` (lines 101-153 of `server.js`): the ordered
argument list for the Gemini CLI. Concatenation order mirrors the
sequence of `args.push` calls; the (possibly rewritten) prompt is last.
Note the function destructures neither `appendSystemPrompt` nor
`disallowedTools`: only `systemPrompt` triggers a prompt rewrite. -/
def mapToGeminiArgs (cfg : Config) (o : Options) : List String :=
  let outputFormat := o.outputFormat.getD "json"
  let model := o.model.getD cfg.GEMINI_DEFAULT_MODEL
  let finalPrompt :=
    if strTruthy o.systemPrompt then
      "System: " ++ o.systemPrompt.getD "" ++ "\n\nUser: " ++ o.prompt
    else o.prompt
  (if outputFormat == "stream-json" then ["--output-format", "stream-json"]
   else if outputFormat == "json" then ["--output-format", "json"]
   else ["--output-format", "text"])
  ++ ["--model", model]
  ++ (if o.dangerouslySkipPermissions then ["--yolo"]
      else match o.allowedTools with
        | some ts => if ts.length > 0 then ["--allowed-tools"] ++ ts else []
        | none => [])
  ++ geminiSessionArgs o
  ++ [finalPrompt]

/-- Argument construction of `executeClaudeCode` (lines 244-295 of
`server.js`): the ordered argument list for the Claude CLI. Concatenation
order mirrors the sequence of `args.push` calls; the prompt is last and is
never rewritten. -/
def mapToClaudeArgs (cfg : Config) (o : Options) : List String :=
  let outputFormat := o.outputFormat.getD "json"
  let model := o.model.getD cfg.CLAUDE_DEFAULT_MODEL
  ["--print"]
  ++ ["--output-format", outputFormat]
  ++ (if o.includePartialMessages && outputFormat == "stream-json" then
        ["--include-partial-messages"] else [])
  ++ (if model == "" then [] else ["--model", model])
  ++ (if strTruthy o.systemPrompt then
        ["--system-prompt", o.systemPrompt.getD ""] else [])
  ++ (if strTruthy o.appendSystemPrompt then
        ["--append-system-prompt", o.appendSystemPrompt.getD ""] else [])
  ++ (match o.allowedTools with
      | some ts => if ts.length > 0 then
          ["--allowed-tools", String.intercalate " " ts] else []
      | none => [])
  ++ (match o.disallowedTools with
      | some ts => if ts.length > 0 then
          ["--disallowed-tools", String.intercalate " " ts] else []
      | none => [])
  ++ (if o.dangerouslySkipPermissions then
        ["--dangerously-skip-permissions"] else [])
  ++ (match o.settings with
      | some s => ["--settings", s]
      | none => [])
  ++ (match o.mcpConfig with
      | some ps => if ps.length > 0 then ["--mcp-config"] ++ ps else []
      | none => [])
  ++ (if o.continueSession then ["--continue"] else [])
  ++ (if strTruthy o.resumeSession then
        ["--resume", o.resumeSession.getD ""] else [])
  ++ (if strTruthy o.sessionId then
        ["--session-id", o.sessionId.getD ""] else [])
  ++ [o.prompt]

/-- The Gemini branch of the `POST /api/stream` handler (lines 605-616 of
`server.js`): its own inline argument construction, which, unlike
`mapToGeminiArgs`, also handles `appendSystemPrompt`. -/
def streamGeminiArgs (cfg : Config) (o : Options) : List String :=
  let cliToUse := jsOrStr o.cli cfg.DEFAULT_CLI
  let modelToUse := jsOrStr o.model (getDefaultModel cfg cliToUse)
  let finalPrompt :=
    if strTruthy o.systemPrompt then
      "System: " ++ o.systemPrompt.getD "" ++ "\n\nUser: " ++ o.prompt
    else if strTruthy o.appendSystemPrompt then
      o.appendSystemPrompt.getD "" ++ "\n\n" ++ o.prompt
    else o.prompt
  ["--output-format", "stream-json"] ++ ["--model", modelToUse] ++ [finalPrompt]

/-! Section: Process executor event semantics

`executeClaudeCode` and `executeGeminiCLI` (lines 158-219 and 224-353 of
`server.js`) share the same promise-based lifecycle, differing only in the
display name used in error messages. We embed one run as a fold of observed
events over an executor state. The timeout timer is registered by
`setTimeout` as soon as the executor is invoked, so `initState` has
`timerStarted = true` and `timerActive = true`; `clearTimeout` is modelled
by setting `timerActive := false`, and a cleared timer can no longer fire.
A promise settles at most once: `settle` is a no-op on a settled state. -/

/-- Captured output of a successful execution. -/
structure ProcOutput where
  stdout : String
  stderr : String
  deriving DecidableEq, Repr

/-- The settled value of the executor's promise. -/
inductive ExecOutcome where
  | resolved (out : ProcOutput)
  | rejected (msg : String)
  deriving DecidableEq, Repr

/-- State of one buffered execution: accumulated output, the `killed` flag,
the timeout timer (whether `setTimeout` ran, and whether it is still
pending), and the promise's settled value, if any. -/
structure ExecState where
  stdout : String
  stderr : String
  killed : Bool
  timerStarted : Bool
  timerActive : Bool
  settled : Option ExecOutcome
  deriving DecidableEq, Repr

/-- Events observed by one buffered execution's handlers: stdout data,
stderr data, the timeout timer firing, the child's `error` event (spawn
failure), and the child's `close` event with an exit code. -/
inductive ProcEvent where
  | stdoutData (s : String)
  | stderrData (s : String)
  | timeoutFire
  | spawnError (msg : String)
  | close (code : Int)
  deriving DecidableEq, Repr

/-- Settle the promise: the first `resolve`/`reject` wins, later ones are
no-ops. -/
def settle (s : ExecState) (o : ExecOutcome) : ExecState :=
  match s.settled with
  | some _ => s
  | none => { s with settled := some o }

/-- Executor state right after `executeClaudeCode`/`executeGeminiCLI` is
invoked: nothing captured, not killed, promise pending, and the timeout
timer already started by the unconditional `setTimeout` call. -/
def initState : ExecState :=
  { stdout := "", stderr := "", killed := false,
    timerStarted := true, timerActive := true, settled := none }

/-- One event handler step of the buffered executor, mirroring the handler
bodies in `server.js`:
the timeout callback sets `killed`, kills the process and rejects;
the `error` handler clears the timer and rejects with a spawn-failure
message; the `close` handler clears the timer, returns early when `killed`
is set, rejects on a non-zero code and resolves otherwise. -/
def execStep (displayName : String) (s : ExecState) (e : ProcEvent) : ExecState :=
  match e with
  | .stdoutData d => { s with stdout := s.stdout ++ d }
  | .stderrData d => { s with stderr := s.stderr ++ d }
  | .timeoutFire =>
      if s.timerActive then
        settle { s with killed := true, timerActive := false }
          (.rejected "Request timeout exceeded")
      else s
  | .spawnError msg =>
      settle { s with timerActive := false }
        (.rejected ("Failed to spawn " ++ displayName ++ ": " ++ msg))
  | .close code =>
      let s' := { s with timerActive := false }
      if s'.killed then s'
      else if code != 0 then
        settle s'
          (.rejected (displayName ++ " exited with code " ++ toString code
            ++ ": " ++ s'.stderr))
      else
        settle s' (.resolved { stdout := s'.stdout, stderr := s'.stderr })

/-- Run one buffered execution over a sequence of observed events. -/
def runExec (displayName : String) (evs : List ProcEvent) : ExecState :=
  evs.foldl (execStep displayName) initState

/-! Section: Fallback orchestrator (`executeAICLI`, lines 361-411) -/

/-- Outcome of one backend attempt, abstracting what
`executeClaudeCode`/`executeGeminiCLI` settle with. -/
inductive AttemptOutcome where
  | ok (stdout stderr : String)
  | err (msg : String)
  deriving DecidableEq, Repr

/-- The value `executeAICLI` resolves with on success:
`{ ...result, usedCLI, fallbackUsed }`. -/
structure ExecResult where
  stdout : String
  stderr : String
  usedCLI : String
  fallbackUsed : Bool
  deriving DecidableEq, Repr

/-- The orchestrator's result: resolved value or thrown error message. -/
inductive CallResult where
  | ok (r : ExecResult)
  | error (msg : String)
  deriving DecidableEq, Repr

/-- Line 363: `const enableFallback = CONFIG.ENABLE_FALLBACK && !options.disableFallback`
(line 363). -/
def fallbackEligible (cfg : Config) (options : Options) : Bool :=
  cfg.ENABLE_FALLBACK && !options.disableFallback

/-- Lines 362 and 366: `const cliToUse = preferredCLI || options.cli || CONFIG.DEFAULT_CLI`
followed by `primaryCLI = cliToUse === "gemini" ? "gemini" : "claude"`
(lines 362, 366). -/
def primaryCLIOf (cfg : Config) (options : Options)
    (preferredCLI : Option String) : String :=
  if jsOrStr preferredCLI (jsOrStr options.cli cfg.DEFAULT_CLI) == "gemini"
  then "gemini" else "claude"

/-- Line 367: `fallbackCLI = primaryCLI === "claude" ? "gemini" : "claude"`. -/
def fallbackCLIOf (cfg : Config) (options : Options)
    (preferredCLI : Option String) : String :=
  if primaryCLIOf cfg options preferredCLI == "claude" then "gemini" else "claude"

/-- Function `executeAICLI(options, preferredCLI)` (lines 361-411). `run cli options`
abstracts one spawned backend attempt (`executeClaudeCode` or
`executeGeminiCLI`, selected by `cli`). Besides the result, we return the
trace of attempts: one entry `(cli, options)` per process spawned, in
order, recording the exact options each attempt received. -/
def executeAICLI (cfg : Config) (options : Options) (preferredCLI : Option String)
    (run : String → Options → AttemptOutcome) :
    CallResult × List (String × Options) :=
  let primaryCLI := primaryCLIOf cfg options preferredCLI
  let fallbackCLI := fallbackCLIOf cfg options preferredCLI
  match run primaryCLI options with
  | .ok out err =>
      (.ok { stdout := out, stderr := err, usedCLI := primaryCLI,
             fallbackUsed := false },
       [(primaryCLI, options)])
  | .err pmsg =>
      if fallbackEligible cfg options then
        match run fallbackCLI options with
        | .ok out err =>
            (.ok { stdout := out, stderr := err, usedCLI := fallbackCLI,
                   fallbackUsed := true },
             [(primaryCLI, options), (fallbackCLI, options)])
        | .err fmsg =>
            (.error ("Both CLIs failed. Primary (" ++ primaryCLI ++ "): "
               ++ pmsg ++ ". Fallback (" ++ fallbackCLI ++ "): " ++ fmsg),
             [(primaryCLI, options), (fallbackCLI, options)])
      else
        (.error pmsg, [(primaryCLI, options)])

/-! Section: Output parsing (`parseOutput`, lines 416-425) -/

/-- The shape of `parseOutput`'s return value: successfully decoded
structured data, the raw-tagged fallback `{ response, raw: true,
parseError }`, or the plain `{ response }` wrapper for non-json formats. -/
inductive Parsed (V : Type) where
  | parsed (v : V)
  | rawTagged (response : String) (parseError : String)
  | plain (response : String)
  deriving DecidableEq, Repr

/-- Function `parseOutput(stdout, outputFormat)`. `jsonParse` abstracts the platform
`JSON.parse`, whose thrown exception is modelled as `Except.error` with the
exception's message; the `try`/`catch` around it becomes the `match`. -/
def parseOutput {V : Type} (jsonParse : String → Except String V)
    (stdout : String) (outputFormat : String) : Parsed V :=
  if outputFormat == "json" then
    match jsonParse stdout with
    | .ok v => .parsed v
    | .error e => .rawTagged stdout e
  else
    .plain stdout

/-! Section: Streaming relay sink behaviour (`POST /api/stream`, lines 639-654) -/

/-- Events observed by the streaming handler's process listeners. -/
inductive StreamEvent where
  | stdoutData (chunk : String)
  | stderrData (chunk : String)
  | close (code : Int)
  deriving DecidableEq, Repr

/-- State of the outgoing response stream: the ordered list of `res.write`
payloads and whether `res.end()` has run. -/
structure StreamState where
  writes : List String
  ended : Bool
  deriving DecidableEq, Repr

/-- The inline failure record written on a non-zero exit:
`JSON.stringify({ error: "Process exited with code " + code }) + "\n"`. -/
def errorRecord (code : Int) : String :=
  "\x7b\"error\":\"Process exited with code " ++ toString code ++ "\"\x7d\n"

/-- One listener step of the streaming relay: stdout chunks are written to
the response verbatim, stderr is only logged, and on `close` a non-zero
code appends one inline failure record before `res.end()`. -/
def streamStep (s : StreamState) (e : StreamEvent) : StreamState :=
  match e with
  | .stdoutData c => { s with writes := s.writes ++ [c] }
  | .stderrData _ => s
  | .close code =>
      let s' := if code != 0
        then { s with writes := s.writes ++ [errorRecord code] } else s
      { s' with ended := true }

/-- Run the streaming relay's sink over a sequence of observed events. -/
def runStream (evs : List StreamEvent) : StreamState :=
  evs.foldl streamStep { writes := [], ended := false }

/-! Section: Batch handler (`POST /api/batch`, lines 690-753) -/

/-- One element of the `prompts` array: a bare prompt string or an object
with per-item overrides of prompt, model, systemPrompt and cli. -/
inductive BatchItem where
  | str (s : String)
  | obj (prompt : String) (model systemPrompt cli : Option String)
  deriving DecidableEq, Repr

/-- The options passed to `executeAICLI` for one batch item (lines 708-714):
the request-wide common options with per-item prompt/model/systemPrompt/cli
layered on top via `||`. -/
def itemOptions (common : Options) (it : BatchItem) : Options :=
  match it with
  | .str s => { common with prompt := s }
  | .obj p m sp c =>
      { common with
        prompt := p,
        model := jsOrOpt m common.model,
        systemPrompt := jsOrOpt sp common.systemPrompt,
        cli := jsOrOpt c common.cli }

/-- One entry of the batch `results` list. The source stores the parsed
stdout as `data`; we keep the captured stdout itself. -/
structure BatchItemSuccess where
  index : Nat
  stdout : String
  usedCLI : String
  fallbackUsed : Bool
  deriving DecidableEq, Repr

/-- One entry of the batch `errors` list. -/
structure BatchItemError where
  index : Nat
  error : String
  deriving DecidableEq, Repr

/-- The batch response `summary` object. -/
structure BatchSummary where
  total : Nat
  successful : Nat
  failed : Nat
  deriving DecidableEq, Repr

/-- The batch endpoint's response: a 400 rejection with an error message,
or the final 200 payload. -/
inductive BatchResponse where
  | badRequest (error : String)
  | done (success : Bool) (results : List BatchItemSuccess)
      (errors : List BatchItemError) (summary : BatchSummary)
  deriving DecidableEq, Repr

/-- The `POST /api/batch` handler (lines 690-753): validation of the
`prompts` array (`none` models a missing or non-array field), the 10-item
cap, then the sequential loop over items through `executeAICLI`. Besides
the response we return the concatenated spawn trace of every backend
attempt made. -/
def batchHandler (cfg : Config) (prompts : Option (List BatchItem))
    (common : Options) (run : String → Options → AttemptOutcome) :
    BatchResponse × List (String × Options) :=
  match prompts with
  | none => (.badRequest "prompts array is required", [])
  | some ps =>
    if ps.length = 0 then (.badRequest "prompts array is required", [])
    else if ps.length > 10 then (.badRequest "Maximum 10 prompts per batch", [])
    else
      let fin := ps.enum.foldl
        (fun (acc : List BatchItemSuccess × List BatchItemError × List (String × Options)) iit =>
          let o := itemOptions common iit.2
          match executeAICLI cfg o none run with
          | (.ok r, tr) =>
              (acc.1 ++ [{ index := iit.1, stdout := r.stdout,
                           usedCLI := r.usedCLI, fallbackUsed := r.fallbackUsed }],
               acc.2.1, acc.2.2 ++ tr)
          | (.error m, tr) =>
              (acc.1, acc.2.1 ++ [{ index := iit.1, error := m }], acc.2.2 ++ tr))
        ([], [], [])
      (.done (fin.2.1.length = 0) fin.1 fin.2.1
        { total := ps.length, successful := fin.1.length,
          failed := fin.2.1.length },
       fin.2.2)

/-! Section: Concrete instances used to exercise the definitions -/

/-- A configuration with the source's documented defaults. -/
def cfg0 : Config :=
  { DEFAULT_CLI := "claude", ENABLE_FALLBACK := true,
    CLAUDE_DEFAULT_MODEL := "sonnet", GEMINI_DEFAULT_MODEL := "gemini-2.5-flash" }

/-- A minimal request. -/
def defaultOpts : Options := { prompt := "hi" }

/-- A request that disables fallback. -/
def noFallbackOpts : Options := { prompt := "hi", disableFallback := true }

/-- A request carrying only an append-system-prompt, no system prompt. -/
def optsAppendOnly : Options := { prompt := "Y", appendSystemPrompt := some "A" }

/-- A request with the skip-permissions flag and a non-empty tools list. -/
def skipOpts : Options :=
  { prompt := "p", dangerouslySkipPermissions := true,
    allowedTools := some ["Bash", "Read"] }

/-- Like `skipOpts` but with the skip-permissions flag off. -/
def noSkipOpts : Options :=
  { prompt := "p", allowedTools := some ["Bash", "Read"] }

/-- A backend oracle on which every attempt fails. -/
def runAlwaysFails : String → Options → AttemptOutcome := fun _ _ => .err "boom"

/-- A backend oracle on which both backends fail with distinct messages. -/
def runBothFail : String → Options → AttemptOutcome :=
  fun cli _ => .err (if cli == "claude" then "claude down" else "gemini down")

/-- A stand-in for `JSON.parse` that always throws. -/
def constErrParse : String → Except String String :=
  fun _ => Except.error "Unexpected token o in JSON at position 1"

/-- A batch `prompts` array of 11 items. -/
def elevenPrompts : List BatchItem := List.replicate 11 (BatchItem.str "p")

/-! Section: Helper lemmas -/

/-- An invariant preserved by every step of a fold holds of the fold. -/
lemma foldl_inv {σ ι : Type} (P : σ → Prop) (f : σ → ι → σ)
    (hstep : ∀ s i, P s → P (f s i)) :
    ∀ (l : List ι) (s : σ), P s → P (l.foldl f s)
  | [], _, h => h
  | i :: l, s, h => foldl_inv P f hstep l (f s i) (hstep s i h)

/-- A promise that has settled keeps its value through any later event. -/
lemma execStep_settled_mono (dn : String) (s : ExecState) (e : ProcEvent)
    (v : ExecOutcome) (h : s.settled = some v) :
    (execStep dn s e).settled = some v := by
  cases e <;> simp only [execStep, settle] <;>
    first
      | exact h
      | (split <;> simp_all [settle])

/-- Once `clearTimeout` has run, no later event re-arms the timer. -/
lemma execStep_timerActive_mono (dn : String) (s : ExecState) (e : ProcEvent)
    (h : s.timerActive = false) :
    (execStep dn s e).timerActive = false := by
  cases e <;> simp_all [execStep, settle] <;> (repeat' split) <;> simp_all

/-- The executor invariant: a killed process has already been rejected with
the timeout error, and while the timer is still pending the promise is
unsettled and the process not killed. -/
def ExecInv (s : ExecState) : Prop :=
  (s.killed = true →
    s.settled = some (ExecOutcome.rejected "Request timeout exceeded"))
  ∧ (s.timerActive = true → s.settled = none ∧ s.killed = false)

lemma execStep_inv (dn : String) (s : ExecState) (e : ProcEvent)
    (h : ExecInv s) : ExecInv (execStep dn s e) := by
  obtain ⟨h1, h2⟩ := h
  cases e with
  | stdoutData d => exact ⟨h1, h2⟩
  | stderrData d => exact ⟨h1, h2⟩
  | timeoutFire =>
      by_cases ha : s.timerActive = true
      · obtain ⟨hs, _⟩ := h2 ha
        simp [execStep, ha, settle, hs, ExecInv]
      · simp only [execStep, Bool.not_eq_true] at ha ⊢
        simp [ha]
        exact ⟨h1, h2⟩
  | spawnError msg =>
      by_cases hk : s.killed = true
      · have hs := h1 hk
        simp [execStep, settle, hs, ExecInv, hk]
      · simp only [Bool.not_eq_true] at hk
        constructor
        · intro hk'
          simp [execStep, settle] at hk'
          split at hk' <;> simp_all
        · intro ha
          simp [execStep, settle] at ha
          split at ha <;> simp_all
  | close code =>
      by_cases hk : s.killed = true
      · have hs := h1 hk
        refine ⟨fun _ => ?_, fun ha => ?_⟩
        · simpa [execStep, hk] using hs
        · simp [execStep, hk] at ha
      · simp only [Bool.not_eq_true] at hk
        refine ⟨fun hk' => ?_, fun ha => ?_⟩
        · exfalso
          simp [execStep, settle, hk] at hk'
          split at hk' <;> (repeat' split at hk') <;> simp_all
        · exfalso
          simp [execStep, settle, hk] at ha
          split at ha <;> (repeat' split at ha) <;> simp_all

lemma runExec_inv (dn : String) (evs : List ProcEvent) :
    ExecInv (runExec dn evs) := by
  refine foldl_inv ExecInv (execStep dn) (fun s e h => execStep_inv dn s e h)
    evs initState ?_
  exact ⟨by simp [initState], by simp [initState]⟩

/-! Section: Claims -/

/-- C4: once the timeout has fired and the process been killed, the buffered
execution settles as the timeout failure and can never subsequently resolve
as a success — any later event, including an "exited with code 0" close, is
discarded. -/
theorem timeout_wins_race (dn : String) (evs more : List ProcEvent)
    (h : (runExec dn evs).killed = true) :
    (runExec dn (evs ++ more)).settled
      = some (ExecOutcome.rejected "Request timeout exceeded") := by
  have h1 : (runExec dn evs).settled
      = some (ExecOutcome.rejected "Request timeout exceeded") :=
    (runExec_inv dn evs).1 h
  have heq : runExec dn (evs ++ more)
      = more.foldl (execStep dn) (runExec dn evs) := by
    simp [runExec, List.foldl_append]
  rw [heq]
  exact foldl_inv
    (fun s => s.settled = some (ExecOutcome.rejected "Request timeout exceeded"))
    (execStep dn) (fun s e hs => execStep_settled_mono dn s e _ hs) more _ h1

/-- Witness for C4: a timeout followed by a clean exit still reports the
timeout failure. -/
theorem timeout_wins_race_witness :
    (runExec "Claude Code" ([ProcEvent.timeoutFire] ++ [ProcEvent.close 0])).settled
      = some (ExecOutcome.rejected "Request timeout exceeded") :=
  timeout_wins_race "Claude Code" [ProcEvent.timeoutFire] [ProcEvent.close 0]
    (by decide)

/-- C5 counterexample: on a spawn failure the execution does reject with the
distinct spawn-failure message carrying the OS error text, but the timeout
timer HAS been started — `setTimeout` runs unconditionally when the executor
is invoked, before the spawn-failure event can arrive — refuting the
claim's "the timeout timer is never started". -/
theorem spawn_failure_timer_started :
    (runExec "Gemini CLI" [ProcEvent.spawnError "spawn gemini ENOENT"]).settled
        = some (ExecOutcome.rejected "Failed to spawn Gemini CLI: spawn gemini ENOENT")
      ∧ (runExec "Gemini CLI" [ProcEvent.spawnError "spawn gemini ENOENT"]).timerStarted
        = true := by
  constructor <;> decide

/-- C5 (amended): when the process fails to start, the execution rejects
with the distinct spawn-failure message carrying the underlying OS error
text; the timeout timer, though started unconditionally at invocation, is
cleared by the spawn-failure handler and can never fire afterwards, and no
later event changes the outcome. -/
theorem spawn_failure_rejects_and_timer_cleared (dn msg : String)
    (post : List ProcEvent) :
    (runExec dn (ProcEvent.spawnError msg :: post)).settled
        = some (ExecOutcome.rejected ("Failed to spawn " ++ dn ++ ": " ++ msg))
      ∧ (runExec dn (ProcEvent.spawnError msg :: post)).timerActive = false := by
  have hstep : execStep dn initState (ProcEvent.spawnError msg)
      = { stdout := "", stderr := "", killed := false, timerStarted := true,
          timerActive := false,
          settled := some (ExecOutcome.rejected
            ("Failed to spawn " ++ dn ++ ": " ++ msg)) } := by
    simp [execStep, initState, settle]
  have : runExec dn (ProcEvent.spawnError msg :: post)
      = post.foldl (execStep dn) (execStep dn initState (ProcEvent.spawnError msg)) := by
    simp [runExec]
  rw [this, hstep]
  apply foldl_inv
    (fun s => s.settled = some (ExecOutcome.rejected
        ("Failed to spawn " ++ dn ++ ": " ++ msg)) ∧ s.timerActive = false)
    (execStep dn)
    (fun s e hs => ⟨execStep_settled_mono dn s e _ hs.1,
                    execStep_timerActive_mono dn s e hs.2⟩)
  exact ⟨rfl, rfl⟩

/-- C1: spawn-count bounds of the fallback orchestrator `executeAICLI`:
with fallback not eligible exactly one backend attempt is made regardless
of outcome; in every case at most two attempts are made, i.e. at most one
fallback attempt after the primary — the orchestrator never chains a
second retry. -/
theorem executeAICLI_spawn_bounds (cfg : Config) (options : Options)
    (preferredCLI : Option String) (run : String → Options → AttemptOutcome) :
    (fallbackEligible cfg options = false →
        (executeAICLI cfg options preferredCLI run).2.length = 1)
      ∧ (executeAICLI cfg options preferredCLI run).2.length ≤ 2
      ∧ ((executeAICLI cfg options preferredCLI run).2.drop 1).length ≤ 1 := by
  unfold executeAICLI
  cases hp : run (primaryCLIOf cfg options preferredCLI) options with
  | ok out err => simp [hp]
  | err pmsg =>
      by_cases h : fallbackEligible cfg options = true
      · cases hf : run (fallbackCLIOf cfg options preferredCLI) options <;>
          simp [hp, hf, h]
      · simp only [Bool.not_eq_true] at h
        simp [hp, h]

/-- Witness for C1: with fallback disabled by the request and a failing
primary, exactly one attempt is recorded. -/
theorem executeAICLI_spawn_bounds_witness :
    fallbackEligible cfg0 noFallbackOpts = false
      ∧ (executeAICLI cfg0 noFallbackOpts none runAlwaysFails).2.length = 1 :=
  ⟨by decide,
   (executeAICLI_spawn_bounds cfg0 noFallbackOpts none runAlwaysFails).1 (by decide)⟩

/-- C6: when the primary fails, fallback is eligible, and the fallback
attempt — run with the identical, unmutated options — also fails,
`executeAICLI` throws a single aggregate error naming both backends and
carrying both original failure messages; the attempt trace shows both
backends received the same options. -/
theorem executeAICLI_aggregate_failure (cfg : Config) (options : Options)
    (preferredCLI : Option String) (run : String → Options → AttemptOutcome)
    (pmsg fmsg : String)
    (helig : fallbackEligible cfg options = true)
    (hp : run (primaryCLIOf cfg options preferredCLI) options
      = AttemptOutcome.err pmsg)
    (hf : run (fallbackCLIOf cfg options preferredCLI) options
      = AttemptOutcome.err fmsg) :
    executeAICLI cfg options preferredCLI run
      = (CallResult.error ("Both CLIs failed. Primary ("
           ++ primaryCLIOf cfg options preferredCLI ++ "): " ++ pmsg
           ++ ". Fallback (" ++ fallbackCLIOf cfg options preferredCLI
           ++ "): " ++ fmsg),
         [(primaryCLIOf cfg options preferredCLI, options),
          (fallbackCLIOf cfg options preferredCLI, options)]) := by
  simp [executeAICLI, hp, hf, helig]

/-- Witness for C6: with both backends failing, the aggregate error names
claude and gemini and carries both messages. -/
theorem executeAICLI_aggregate_failure_witness :
    executeAICLI cfg0 defaultOpts none runBothFail
      = (CallResult.error ("Both CLIs failed. Primary ("
           ++ primaryCLIOf cfg0 defaultOpts none ++ "): " ++ "claude down"
           ++ ". Fallback (" ++ fallbackCLIOf cfg0 defaultOpts none
           ++ "): " ++ "gemini down"),
         [(primaryCLIOf cfg0 defaultOpts none, defaultOpts),
          (fallbackCLIOf cfg0 defaultOpts none, defaultOpts)]) :=
  executeAICLI_aggregate_failure cfg0 defaultOpts none runBothFail
    "claude down" "gemini down" (by decide) (by decide) (by decide)

/-- C7: the deployment-level fallback switch is constant: for every value
of the ENABLE_FALLBACK environment variable (including "false" and unset)
`CONFIG.ENABLE_FALLBACK` evaluates to true, so fallback eligibility is
decided solely by the request's `disableFallback` field. -/
theorem enable_fallback_constant_true (env : Option String) (cfg : Config)
    (options : Options) (h : cfg.ENABLE_FALLBACK = configEnableFallback env) :
    configEnableFallback env = true
      ∧ fallbackEligible cfg options = !options.disableFallback := by
  have ht : configEnableFallback env = true := by
    simp [configEnableFallback]
  exact ⟨ht, by simp [fallbackEligible, h, ht]⟩

/-- Witness for C7: even with ENABLE_FALLBACK set to "false" the computed
flag is true and eligibility equals the negated per-request field. -/
theorem enable_fallback_constant_true_witness :
    configEnableFallback (some "false") = true
      ∧ fallbackEligible cfg0 defaultOpts = !defaultOpts.disableFallback :=
  enable_fallback_constant_true (some "false") cfg0 defaultOpts (by decide)

/-- C2 counterexample: a request with only an append-system-prompt (no
system prompt) routed through the Gemini adapter `mapToGeminiArgs` keeps
the original prompt as the final positional argument — the adapter ignores
`appendSystemPrompt` — refuting the claimed
"\x7bappendSystemPrompt\x7d\n\n\x7bprompt\x7d" rewrite for that adapter. -/
theorem gemini_append_only_counterexample :
    (mapToGeminiArgs cfg0 optsAppendOnly).getLast? = some "Y"
      ∧ (mapToGeminiArgs cfg0 optsAppendOnly).getLast?
        ≠ some ("A" ++ "\n\n" ++ "Y") := by
  constructor <;> decide

/-- The final positional argument of `mapToGeminiArgs` is the (possibly
rewritten) prompt. -/
lemma mapToGeminiArgs_getLast (cfg : Config) (o : Options) :
    (mapToGeminiArgs cfg o).getLast?
      = some (if strTruthy o.systemPrompt
          then "System: " ++ o.systemPrompt.getD "" ++ "\n\nUser: " ++ o.prompt
          else o.prompt) := by
  simp only [mapToGeminiArgs]
  exact List.getLast?_concat _

/-- The final positional argument of the streaming handler's Gemini branch
is the (possibly rewritten) prompt. -/
lemma streamGeminiArgs_getLast (cfg : Config) (o : Options) :
    (streamGeminiArgs cfg o).getLast?
      = some (if strTruthy o.systemPrompt
          then "System: " ++ o.systemPrompt.getD "" ++ "\n\nUser: " ++ o.prompt
          else if strTruthy o.appendSystemPrompt
            then o.appendSystemPrompt.getD "" ++ "\n\n" ++ o.prompt
            else o.prompt) := by
  simp only [streamGeminiArgs]
  exact List.getLast?_concat _

/-- C2 (amended): when a system prompt is present, both the Gemini adapter
and the streaming handler's Gemini branch emit
"System: \x7bsystemPrompt\x7d\n\nUser: \x7bprompt\x7d" as the final
positional argument; when only an append-system-prompt is present, the
"\x7bappendSystemPrompt\x7d\n\n\x7bprompt\x7d" rewrite happens only in the
streaming branch, while `mapToGeminiArgs` leaves the prompt unchanged;
with neither present both leave the prompt unchanged. -/
theorem gemini_prompt_rewrite (cfg : Config) (o : Options) :
    (strTruthy o.systemPrompt = true →
        (mapToGeminiArgs cfg o).getLast?
            = some ("System: " ++ o.systemPrompt.getD "" ++ "\n\nUser: " ++ o.prompt)
          ∧ (streamGeminiArgs cfg o).getLast?
            = some ("System: " ++ o.systemPrompt.getD "" ++ "\n\nUser: " ++ o.prompt))
      ∧ (strTruthy o.systemPrompt = false → strTruthy o.appendSystemPrompt = true →
          (mapToGeminiArgs cfg o).getLast? = some o.prompt
            ∧ (streamGeminiArgs cfg o).getLast?
              = some (o.appendSystemPrompt.getD "" ++ "\n\n" ++ o.prompt))
      ∧ (strTruthy o.systemPrompt = false → strTruthy o.appendSystemPrompt = false →
          (mapToGeminiArgs cfg o).getLast? = some o.prompt
            ∧ (streamGeminiArgs cfg o).getLast? = some o.prompt) := by
  refine ⟨fun h => ⟨?_, ?_⟩, fun h1 h2 => ⟨?_, ?_⟩, fun h1 h2 => ⟨?_, ?_⟩⟩ <;>
    simp [mapToGeminiArgs_getLast, streamGeminiArgs_getLast, *]

/-- Witness for C2 (amended): with only append-system-prompt present, the
buffered Gemini adapter keeps "Y" while the streaming branch rewrites. -/
theorem gemini_prompt_rewrite_witness :
    (mapToGeminiArgs cfg0 optsAppendOnly).getLast? = some optsAppendOnly.prompt
      ∧ (streamGeminiArgs cfg0 optsAppendOnly).getLast?
        = some (optsAppendOnly.appendSystemPrompt.getD "" ++ "\n\n"
            ++ optsAppendOnly.prompt) :=
  (gemini_prompt_rewrite cfg0 optsAppendOnly).2.1 (by decide) (by decide)

/-- C3: the skip-safety-checks flag is treated asymmetrically: with the
skip flag set and a non-empty allowed-tools list, the Claude adapter emits
both `--dangerously-skip-permissions` and `--allowed-tools`, while the
Gemini adapter emits `--yolo` and omits the allowed-tools list entirely
(its output is the same as with no tools list); with the skip flag off and
a non-empty tools list, the Gemini adapter emits `--allowed-tools`. -/
theorem skip_permissions_tools_asymmetry (cfg : Config) (o : Options)
    (ts : List String) (ht : o.allowedTools = some ts) (hne : ts ≠ []) :
    (o.dangerouslySkipPermissions = true →
        "--dangerously-skip-permissions" ∈ mapToClaudeArgs cfg o
          ∧ "--allowed-tools" ∈ mapToClaudeArgs cfg o
          ∧ "--yolo" ∈ mapToGeminiArgs cfg o
          ∧ mapToGeminiArgs cfg o
            = mapToGeminiArgs cfg { o with allowedTools := none })
      ∧ (o.dangerouslySkipPermissions = false →
          "--allowed-tools" ∈ mapToGeminiArgs cfg o) := by
  have hlen : ts.length > 0 := List.length_pos.mpr hne
  refine ⟨fun h => ⟨?_, ?_, ?_, ?_⟩, fun h => ?_⟩ <;>
    simp [mapToClaudeArgs, mapToGeminiArgs, geminiSessionArgs, ht, hlen, h]

/-- Witness for C3: a concrete request with the skip flag and tools
["Bash", "Read"]. -/
theorem skip_permissions_tools_asymmetry_witness :
    ("--dangerously-skip-permissions" ∈ mapToClaudeArgs cfg0 skipOpts
        ∧ "--allowed-tools" ∈ mapToClaudeArgs cfg0 skipOpts
        ∧ "--yolo" ∈ mapToGeminiArgs cfg0 skipOpts
        ∧ mapToGeminiArgs cfg0 skipOpts
          = mapToGeminiArgs cfg0 { skipOpts with allowedTools := none })
      ∧ "--allowed-tools" ∈ mapToGeminiArgs cfg0 noSkipOpts :=
  ⟨(skip_permissions_tools_asymmetry cfg0 skipOpts ["Bash", "Read"]
      (by decide) (by decide)).1 (by decide),
   (skip_permissions_tools_asymmetry cfg0 noSkipOpts ["Bash", "Read"]
      (by decide) (by decide)).2 (by decide)⟩

/-- C8: a batch request whose prompts list has more than 10 items is
rejected with the maximum-10-prompts error and an empty spawn trace — no
backend process is spawned and no item executes. -/
theorem batch_over_10_rejected (cfg : Config) (common : Options)
    (run : String → Options → AttemptOutcome) (ps : List BatchItem)
    (h : ps.length > 10) :
    batchHandler cfg (some ps) common run
      = (BatchResponse.badRequest "Maximum 10 prompts per batch", []) := by
  have h0 : ¬ ps.length = 0 := by omega
  simp [batchHandler, h0, h]

/-- Witness for C8: a batch of 11 prompts is rejected with no spawn. -/
theorem batch_over_10_rejected_witness :
    batchHandler cfg0 (some elevenPrompts) defaultOpts runAlwaysFails
      = (BatchResponse.badRequest "Maximum 10 prompts per batch", []) :=
  batch_over_10_rejected cfg0 defaultOpts runAlwaysFails elevenPrompts (by decide)

/-- C9: output decoding never fails a request: `parseOutput` returns a
value for every stdout and outputFormat — with "json" format it returns
the decoded value on success and the raw text tagged as unparsed (with the
parse error) on failure, and wraps the raw text for any other format. -/
theorem parseOutput_never_fails {V : Type} (jsonParse : String → Except String V)
    (stdout outputFormat : String) :
    (∀ e, outputFormat = "json" → jsonParse stdout = Except.error e →
        parseOutput jsonParse stdout outputFormat = Parsed.rawTagged stdout e)
      ∧ (∀ v, outputFormat = "json" → jsonParse stdout = Except.ok v →
          parseOutput jsonParse stdout outputFormat = Parsed.parsed v)
      ∧ (outputFormat ≠ "json" →
          parseOutput jsonParse stdout outputFormat = Parsed.plain stdout) := by
  refine ⟨fun e hf hp => ?_, fun v hf hp => ?_, fun hf => ?_⟩ <;>
    simp_all [parseOutput]

/-- Witness for C9: a JSON.parse stand-in that always throws yields the
raw-tagged value on invalid structured output. -/
theorem parseOutput_never_fails_witness :
    parseOutput constErrParse "not json" "json"
      = Parsed.rawTagged "not json" "Unexpected token o in JSON at position 1" :=
  (parseOutput_never_fails constErrParse "not json" "json").1
    "Unexpected token o in JSON at position 1" rfl rfl

/-- Relaying stdout chunks appends them to the response writes in arrival
order and touches nothing else. -/
lemma runStream_data_chunks (chunks : List String) (s : StreamState) :
    (chunks.map StreamEvent.stdoutData).foldl streamStep s
      = { writes := s.writes ++ chunks, ended := s.ended } := by
  induction chunks generalizing s with
  | nil => simp
  | cons c cs ih => simp [streamStep, ih]

/-- C10: a streaming process that emits chunks and then closes yields the
chunks, unchanged and in arrival order, on the outgoing stream; a non-zero
exit appends exactly one inline failure record naming the exit code before
the stream ends, while a clean exit appends nothing; relayed chunks are
never retracted. -/
theorem stream_relay_exit_behaviour (chunks : List String) (code : Int) :
    runStream (chunks.map StreamEvent.stdoutData ++ [StreamEvent.close code])
      = { writes := chunks ++ (if code ≠ 0 then [errorRecord code] else []),
          ended := true } := by
  unfold runStream
  rw [List.foldl_append, runStream_data_chunks]
  by_cases hc : code = 0 <;> simp [streamStep, hc]

end ClaudeGeminiAPI
